import Mathlib

/-!
Verification development for the HIPAA investigation system's compliance /
report pipeline.  The Python modules `src/security/compliance.py`,
`src/ai/analyzer.py` and `src/reports/generator.py` are shallowly embedded
as executable Lean functions over explicit data types; strings are modelled
as `List Char`, Python `int` as `Int`, JSON numbers as exact decimals.
-/

set_option maxRecDepth 4000

namespace HipaaSpec

/-! ### Python string primitives used by the embedded code -/

/-- Index of the first occurrence of `sub` in `hay` at or after offset `i`
(the offset is the index reported, matching Python `str.find`); `none` when
absent. -/
def findAux (sub : List Char) : List Char → Nat → Option Nat
  | [], i => if sub.isPrefixOf ([] : List Char) then some i else none
  | c :: t, i => if sub.isPrefixOf (c :: t) then some i else findAux sub t (i + 1)

/-- Python `hay.find(sub, start)`: absolute index of the first occurrence of
`sub` at or after `start`, or `-1`. -/
def pyFind (hay sub : List Char) (start : Nat) : Int :=
  match findAux sub (hay.drop start) start with
  | some i => (i : Int)
  | none => -1

/-- Python `sub in hay` (substring containment). -/
def pyContains (hay sub : List Char) : Bool :=
  (findAux sub hay 0).isSome

/-- Index of the last occurrence of `sub`, accumulator-style scan. -/
def rfindAux (sub : List Char) : List Char → Nat → Option Nat → Option Nat
  | [], i, acc => if sub.isPrefixOf ([] : List Char) then some i else acc
  | c :: t, i, acc =>
      rfindAux sub t (i + 1) (if sub.isPrefixOf (c :: t) then some i else acc)

/-- Python `hay.rfind(sub)`: index of the last occurrence of `sub`, or `-1`. -/
def pyRfind (hay sub : List Char) : Int :=
  match rfindAux sub hay 0 none with
  | some i => (i : Int)
  | none => -1

/-- Clamp a (possibly negative) Python slice endpoint to `[0, len]`. -/
def sliceIdx (len : Nat) (i : Int) : Nat :=
  if i < 0 then ((len : Int) + i).toNat else min i.toNat len

/-- Python `s[a:b]` with Python's negative-index and clamping semantics. -/
def pySlice (s : List Char) (a b : Int) : List Char :=
  (s.take (sliceIdx s.length b)).drop (sliceIdx s.length a)

/-- The characters removed by Python `str.strip()`. -/
def pyIsSpace (c : Char) : Bool :=
  c = ' ' || c = '\t' || c = '\n' || c = '\r' || c = Char.ofNat 11 || c = Char.ofNat 12

/-- Python `s.strip()`. -/
def pyStrip (s : List Char) : List Char :=
  ((s.dropWhile pyIsSpace).reverse.dropWhile pyIsSpace).reverse

/-- Decimal digit character. -/
def digitChar (d : Nat) : Char :=
  match d with
  | 0 => '0' | 1 => '1' | 2 => '2' | 3 => '3' | 4 => '4'
  | 5 => '5' | 6 => '6' | 7 => '7' | 8 => '8' | _ => '9'

/-- Decimal digits of `n` (fuel-driven so the kernel reduces it). -/
def natCharsAux : Nat → Nat → List Char
  | 0, _ => []
  | fuel + 1, n => if n < 10 then [digitChar n] else natCharsAux fuel (n / 10) ++ [digitChar (n % 10)]

/-- Python `str(n)` for a natural number. -/
def natChars (n : Nat) : List Char := natCharsAux (n + 1) n

/-- Python `str(i)` for an integer. -/
def intChars (i : Int) : List Char :=
  if i < 0 then '-' :: natChars i.natAbs else natChars i.toNat

/-- Python `"\n".join(parts)`. -/
def joinNl (parts : List (List Char)) : List Char :=
  List.intercalate ['\n'] parts

/-- Python `"; ".join(parts)`. -/
def joinSemi (parts : List (List Char)) : List Char :=
  List.intercalate (';' :: ' ' :: []) parts

/-! ### Data model (`src/core/models.py`), restricted to the fields the
embedded functions read -/

/-- `SecurityClassification` enum. -/
inductive SecurityClassification where
  | pub
  | confidential
  | restricted
  | phi
  | cfr2
deriving DecidableEq

/-- `ComplaintStatus` enum. -/
inductive ComplaintStatus where
  | received
  | under_review
  | investigation_in_progress
  | awaiting_response
  | analysis_complete
  | report_generated
  | closed
deriving DecidableEq

/-- The `.value` string of a `ComplaintStatus`. -/
def ComplaintStatus.value : ComplaintStatus → List Char
  | .received => "received".data
  | .under_review => "under_review".data
  | .investigation_in_progress => "investigation_in_progress".data
  | .awaiting_response => "awaiting_response".data
  | .analysis_complete => "analysis_complete".data
  | .report_generated => "report_generated".data
  | .closed => "closed".data

/-- Python `datetime` restricted to the components the embedded formatters
use. -/
structure PyDateTime where
  year : Nat
  month : Nat
  day : Nat
  hour : Nat
  minute : Nat
  second : Nat
deriving DecidableEq

/-- Zero-pad to two digits (`%m`, `%d`, `%H`, `%M`, `%S`). -/
def pad2 (n : Nat) : List Char :=
  if n < 10 then '0' :: natChars n else natChars n

/-- Zero-pad to four digits (`%Y`). -/
def pad4 (n : Nat) : List Char :=
  List.replicate (4 - (natChars n).length) '0' ++ natChars n

/-- `d.strftime('%Y-%m-%d')`. -/
def PyDateTime.fmtDate (d : PyDateTime) : List Char :=
  pad4 d.year ++ ['-'] ++ pad2 d.month ++ ['-'] ++ pad2 d.day

/-- `d.strftime('%Y-%m-%d %H:%M:%S UTC')`. -/
def PyDateTime.fmtFull (d : PyDateTime) : List Char :=
  pad4 d.year ++ ['-'] ++ pad2 d.month ++ ['-'] ++ pad2 d.day ++ [' '] ++
    pad2 d.hour ++ [':'] ++ pad2 d.minute ++ [':'] ++ pad2 d.second ++ " UTC".data

/-- `Document`, restricted to the two fields the compliance checker reads
(`security_classification`, `encrypted`). -/
structure Document where
  security_classification : SecurityClassification
  encrypted : Bool
deriving DecidableEq

/-- `Complaint`, restricted to the fields read by the compliance checker and
the executive-summary builder.  Required string fields are `List Char` and
may be empty, mirroring partially populated records. -/
structure Complaint where
  complaint_number : List Char
  licensee_name : List Char
  licensee_license_number : List Char
  complaint_description : List Char
  status : ComplaintStatus
  received_date : PyDateTime
deriving DecidableEq

/-! ### Compliance checker (`src/security/compliance.py`)

Each check returns a dict `{"compliant", "issues", "warnings", "checked_at"}`;
the wall-clock `checked_at` timestamp is the only impure part and is not read
by any downstream code, so it is omitted from the embedded verdict. -/

/-- A per-rule-set compliance verdict. -/
structure Verdict where
  compliant : Bool
  issues : List (List Char)
  warnings : List (List Char)
deriving DecidableEq

/-- Issue emitted by `check_hipaa_compliance`. -/
def phiIssueMsg : List Char := "PHI documents must be encrypted".data

/-- `ComplianceChecker.check_hipaa_compliance`. -/
def check_hipaa_compliance (_complaint : Complaint) (documents : List Document) : Verdict :=
  let phi_docs := documents.filter
    (fun d => decide (d.security_classification = SecurityClassification.phi))
  let issues : List (List Char) :=
    if phi_docs.isEmpty then []
    else
      let unencrypted_phi := phi_docs.filter (fun d => d.encrypted = false)
      if unencrypted_phi.isEmpty then [] else [phiIssueMsg]
  { compliant := issues.length == 0, issues := issues, warnings := [] }

/-- Issue emitted by `check_cfr2_compliance`. -/
def cfr2IssueMsg : List Char := "42 CFR Part 2 documents must be encrypted".data

/-- Warning emitted by `check_cfr2_compliance`. -/
def cfr2WarningMsg : List Char := "Verify written consent for 42 CFR Part 2 disclosures".data

/-- `ComplianceChecker.check_cfr2_compliance`. -/
def check_cfr2_compliance (_complaint : Complaint) (documents : List Document) : Verdict :=
  let cfr2_docs := documents.filter
    (fun d => decide (d.security_classification = SecurityClassification.cfr2))
  let issues : List (List Char) :=
    if cfr2_docs.isEmpty then []
    else
      let unencrypted_cfr2 := cfr2_docs.filter (fun d => d.encrypted = false)
      if unencrypted_cfr2.isEmpty then [] else [cfr2IssueMsg]
  let warnings : List (List Char) :=
    if cfr2_docs.isEmpty then [] else [cfr2WarningMsg]
  { compliant := issues.length == 0, issues := issues, warnings := warnings }

/-- The retention warning
`f"Record retention set to {retention_days} days, verify compliance with ND law"`. -/
def ndRetentionMsg (retention_days : Int) : List Char :=
  "Record retention set to ".data ++ intChars retention_days ++
    " days, verify compliance with ND law".data

/-- `f"Missing required field: {field}"`. -/
def missingFieldMsg (field : List Char) : List Char :=
  "Missing required field: ".data ++ field

/-- `ComplianceChecker.check_nd_state_law_compliance`.  The configured
`settings.ND_RECORD_RETENTION_DAYS` is passed explicitly. -/
def check_nd_state_law_compliance (retention_days : Int) (complaint : Complaint) : Verdict :=
  let warnings : List (List Char) :=
    if retention_days < 2555 then [ndRetentionMsg retention_days] else []
  let fieldVals : List (List Char × List Char) :=
    [("complaint_number".data, complaint.complaint_number),
     ("licensee_name".data, complaint.licensee_name),
     ("licensee_license_number".data, complaint.licensee_license_number),
     ("complaint_description".data, complaint.complaint_description)]
  let issues : List (List Char) :=
    (fieldVals.filter (fun p => p.2.isEmpty)).map (fun p => missingFieldMsg p.1)
  { compliant := issues.length == 0, issues := issues, warnings := warnings }

/-- The aggregated verdict of `comprehensive_compliance_check`. -/
structure AggregatedVerdict where
  overall_compliant : Bool
  hipaa : Verdict
  cfr2 : Verdict
  nd_state_law : Verdict
  all_issues : List (List Char)
  all_warnings : List (List Char)
deriving DecidableEq

/-- `ComplianceChecker.comprehensive_compliance_check`. -/
def comprehensive_compliance_check (retention_days : Int) (complaint : Complaint)
    (documents : List Document) : AggregatedVerdict :=
  let hipaa := check_hipaa_compliance complaint documents
  let cfr2 := check_cfr2_compliance complaint documents
  let nd_law := check_nd_state_law_compliance retention_days complaint
  { overall_compliant := hipaa.compliant && cfr2.compliant && nd_law.compliant
    hipaa := hipaa
    cfr2 := cfr2
    nd_state_law := nd_law
    all_issues := hipaa.issues ++ cfr2.issues ++ nd_law.issues
    all_warnings := hipaa.warnings ++ cfr2.warnings ++ nd_law.warnings }

/-! ### JSON values and `json.loads` (Python standard library, modelled)

`_parse_analysis_response` delegates to `json.loads`; the library is modelled
here as a strict recursive-descent parser for the JSON grammar (objects,
arrays, strings with the common escapes, numbers, literals), fuelled by the
input length.  `json.loads` rejects trailing non-whitespace, which the model
mirrors. -/

/-- A parsed JSON number, as the exact decimal `mant · 10 ^ exp10`, kept in
the canonical form where `mant` is not a multiple of `10` (and `0` is
`⟨0, 0⟩`), so that equal decimal values have equal representations.  (Python
parses numbers to binary floats; the claims only involve values exact in
decimal, for which this model agrees.) -/
structure JNum where
  mant : Int
  exp10 : Int
deriving DecidableEq

/-- Normalization loop for `JNum.make` (fuel-driven division by 10). -/
def normNumAux : Nat → Int → Int → JNum
  | 0, m, e => ⟨m, e⟩
  | fuel + 1, m, e =>
    if m = 0 then ⟨0, 0⟩
    else if m % 10 = 0 then normNumAux fuel (m / 10) (e + 1)
    else ⟨m, e⟩

/-- Build the canonical `JNum` denoting `m · 10 ^ e`. -/
def JNum.make (m e : Int) : JNum := normNumAux (m.natAbs + 1) m e

/-- The rational value denoted by a `JNum` (for the reader; not used by the
embedded code). -/
def JNum.toRat (n : JNum) : ℚ := (n.mant : ℚ) * (10 : ℚ) ^ n.exp10

/-- A parsed JSON value. -/
inductive Json where
  | null : Json
  | bool : Bool → Json
  | num : JNum → Json
  | str : List Char → Json
  | arr : List Json → Json
  | obj : List (List Char × Json) → Json

/-- JSON insignificant whitespace. -/
def jsonWs (c : Char) : Bool :=
  c = ' ' || c = '\t' || c = '\n' || c = '\r'

/-- Skip JSON whitespace. -/
def skipWs : List Char → List Char
  | [] => []
  | c :: t => if jsonWs c then skipWs t else c :: t

/-- Parse the body of a JSON string after the opening quote; returns the
decoded characters and the remainder after the closing quote. -/
def parseStringBody : Nat → List Char → Option (List Char × List Char)
  | 0, _ => none
  | _, [] => none
  | fuel + 1, c :: t =>
    if c = '"' then some ([], t)
    else if c = '\\' then
      match t with
      | [] => none
      | e :: t2 =>
        let esc : Option Char :=
          if e = '"' then some '"'
          else if e = '\\' then some '\\'
          else if e = '/' then some '/'
          else if e = 'n' then some '\n'
          else if e = 't' then some '\t'
          else if e = 'r' then some '\r'
          else if e = 'b' then some (Char.ofNat 8)
          else if e = 'f' then some (Char.ofNat 12)
          else none
        match esc with
        | some ec => (parseStringBody fuel t2).map (fun p => (ec :: p.1, p.2))
        | none => none
    else (parseStringBody fuel t).map (fun p => (c :: p.1, p.2))

/-- Numeric value of a digit list. -/
def digitsVal (ds : List Char) : Nat :=
  ds.foldl (fun a c => 10 * a + (c.toNat - 48)) 0

/-- Parse an optional exponent part and apply it to the decimal
`mant · 10 ^ exp`. -/
def parseExpPart (mant exp : Int) (s : List Char) : Option (JNum × List Char) :=
  match s with
  | [] => some (JNum.make mant exp, [])
  | c :: t =>
    if c = 'e' || c = 'E' then
      let signed : Bool × List Char :=
        match t with
        | '-' :: u => (true, u)
        | '+' :: u => (false, u)
        | _ => (false, t)
      let es := signed.2.takeWhile Char.isDigit
      let r := signed.2.dropWhile Char.isDigit
      if es.isEmpty then none
      else if signed.1 then some (JNum.make mant (exp - digitsVal es), r)
      else some (JNum.make mant (exp + digitsVal es), r)
    else some (JNum.make mant exp, s)

/-- Parse a JSON number. -/
def parseNumber (s : List Char) : Option (JNum × List Char) :=
  let signed : Bool × List Char :=
    match s with
    | '-' :: t => (true, t)
    | _ => (false, s)
  let ds := signed.2.takeWhile Char.isDigit
  let r1 := signed.2.dropWhile Char.isDigit
  if ds.isEmpty then none
  else
    let ip : Int := (digitsVal ds : Int)
    match r1 with
    | '.' :: t =>
      let fs := t.takeWhile Char.isDigit
      let r2 := t.dropWhile Char.isDigit
      if fs.isEmpty then none
      else
        let m : Int := ip * (10 : Int) ^ fs.length + (digitsVal fs : Int)
        parseExpPart (if signed.1 then -m else m) (-(fs.length : Int)) r2
    | _ => parseExpPart (if signed.1 then -ip else ip) 0 r1

mutual

/-- Parse one JSON value at the head of `s` (no leading whitespace). -/
def parseValue : Nat → List Char → Option (Json × List Char)
  | 0, _ => none
  | fuel + 1, s =>
    match s with
    | [] => none
    | c :: t =>
      if c = '{' then parseMembersStart fuel t
      else if c = '[' then parseElemsStart fuel t
      else if c = '"' then (parseStringBody (t.length + 1) t).map (fun p => (Json.str p.1, p.2))
      else if c = 't' then
        if t.take 3 = ['r', 'u', 'e'] then some (Json.bool true, t.drop 3) else none
      else if c = 'f' then
        if t.take 4 = ['a', 'l', 's', 'e'] then some (Json.bool false, t.drop 4) else none
      else if c = 'n' then
        if t.take 3 = ['u', 'l', 'l'] then some (Json.null, t.drop 3) else none
      else (parseNumber s).map (fun p => (Json.num p.1, p.2))

/-- Parse an object after `{`: either `}` immediately or a member list. -/
def parseMembersStart : Nat → List Char → Option (Json × List Char)
  | 0, _ => none
  | fuel + 1, s =>
    match skipWs s with
    | '}' :: r => some (Json.obj [], r)
    | s1 => parseMembers fuel s1 []

/-- Parse the members of an object (cursor at a key string). -/
def parseMembers : Nat → List Char → List (List Char × Json) → Option (Json × List Char)
  | 0, _, _ => none
  | fuel + 1, s, acc =>
    match skipWs s with
    | '"' :: t =>
      match parseStringBody (t.length + 1) t with
      | some (key, r1) =>
        match skipWs r1 with
        | ':' :: r2 =>
          match parseValue fuel (skipWs r2) with
          | some (v, r3) =>
            match skipWs r3 with
            | ',' :: r4 => parseMembers fuel r4 (acc ++ [(key, v)])
            | '}' :: r4 => some (Json.obj (acc ++ [(key, v)]), r4)
            | _ => none
          | none => none
        | _ => none
      | none => none
    | _ => none

/-- Parse an array after `[`: either `]` immediately or an element list. -/
def parseElemsStart : Nat → List Char → Option (Json × List Char)
  | 0, _ => none
  | fuel + 1, s =>
    match skipWs s with
    | ']' :: r => some (Json.arr [], r)
    | s1 => parseElems fuel s1 []

/-- Parse the elements of an array (cursor at a value). -/
def parseElems : Nat → List Char → List Json → Option (Json × List Char)
  | 0, _, _ => none
  | fuel + 1, s, acc =>
    match parseValue fuel (skipWs s) with
    | some (v, r1) =>
      match skipWs r1 with
      | ',' :: r2 => parseElems fuel r2 (acc ++ [v])
      | ']' :: r2 => some (Json.arr (acc ++ [v]), r2)
      | _ => none
    | none => none

end

/-- `json.loads`: parse a complete JSON document, rejecting trailing
non-whitespace; `none` models a raised `JSONDecodeError`. -/
def json_loads (s : List Char) : Option Json :=
  let s1 := skipWs s
  match parseValue (s1.length + 1) s1 with
  | some (v, rest) => if skipWs rest = [] then some v else none
  | none => none

/-! ### Analysis response parser (`src/ai/analyzer.py`,
`ComplaintAnalyzer._parse_analysis_response` and the `.get` defaulting in
`analyze_complaint`) -/

/-- The `"```json"` fence marker. -/
def fenceJsonTag : List Char := "```json".data

/-- The `"```"` fence marker. -/
def fenceTag : List Char := "```".data

/-- The fence-extraction and stripping prelude of `_parse_analysis_response`:
choose the `"```json"` block interior, else the `"```"` block interior, else
the raw text, stripping; the final `pyStrip` is the second
`json_text = json_text.strip()` line. -/
def extractJsonText (response_text : List Char) : List Char :=
  let branch : List Char :=
    if pyContains response_text fenceJsonTag then
      let json_start : Int := pyFind response_text fenceJsonTag 0 + 7
      let json_end : Int := pyFind response_text fenceTag json_start.toNat
      pyStrip (pySlice response_text json_start json_end)
    else if pyContains response_text fenceTag then
      let json_start : Int := pyFind response_text fenceTag 0 + 3
      let json_end : Int := pyFind response_text fenceTag json_start.toNat
      pyStrip (pySlice response_text json_start json_end)
    else pyStrip response_text
  pyStrip branch

/-- `"key_findings"`. -/
def kKeyFindings : List Char := "key_findings".data

/-- `"recommended_strategies"`. -/
def kRecommended : List Char := "recommended_strategies".data

/-- `"risk_assessment"`. -/
def kRisk : List Char := "risk_assessment".data

/-- `"compliance_notes"`. -/
def kNotes : List Char := "compliance_notes".data

/-- `"confidence_score"`. -/
def kScore : List Char := "confidence_score".data

/-- `"level"`. -/
def kLevel : List Char := "level".data

/-- `"factors"`. -/
def kFactors : List Char := "factors".data

/-- `"urgency"`. -/
def kUrgency : List Char := "urgency".data

/-- `"medium"`. -/
def sMedium : List Char := "medium".data

/-- `"Analysis completed. Review required."`. -/
def fbFinding : List Char := "Analysis completed. Review required.".data

/-- `"Conduct thorough investigation"`. -/
def fbStrategy : List Char := "Conduct thorough investigation".data

/-- `"Requires manual review"`. -/
def fbFactor : List Char := "Requires manual review".data

/-- `"Ensure HIPAA compliance in investigation"`. -/
def fbNote : List Char := "Ensure HIPAA compliance in investigation".data

/-- The fixed fallback default returned when no parsing attempt succeeds. -/
def fallbackJson : Json :=
  Json.obj
    [(kKeyFindings, Json.arr [Json.str fbFinding]),
     (kRecommended, Json.arr [Json.str fbStrategy]),
     (kRisk, Json.obj
        [(kLevel, Json.str sMedium),
         (kFactors, Json.arr [Json.str fbFactor]),
         (kUrgency, Json.str sMedium)]),
     (kNotes, Json.arr [Json.str fbNote]),
     (kScore, Json.num (JNum.make 5 (-1)))]

/-- `ComplaintAnalyzer._parse_analysis_response`: fence extraction, then a
direct `json.loads` when the text starts with `{`, else a brace-delimited
substring attempt; any decode error falls back to `fallbackJson`. -/
def parse_analysis_response (response_text : List Char) : Json :=
  let json_text := extractJsonText response_text
  if json_text.head? = some '{' then
    match json_loads json_text with
    | some v => v
    | none => fallbackJson
  else
    let start : Int := pyFind json_text ['{'] 0
    let endIdx : Int := pyRfind json_text ['}'] + 1
    if 0 ≤ start ∧ start < endIdx then
      match json_loads (pySlice json_text start endIdx) with
      | some v => v
      | none => fallbackJson
    else fallbackJson

/-- Python `dict.get(k)` over the parsed object's pair list (later duplicate
keys shadow earlier ones, as in `json.loads`). -/
def assocGetLast (kvs : List (List Char × Json)) (k : List Char) : Option Json :=
  kvs.foldl (fun acc p => if p.1 = k then some p.2 else acc) none

/-- Python `analysis_result.get(k, dflt)`. -/
def dictGet (j : Json) (k : List Char) (dflt : Json) : Json :=
  match j with
  | Json.obj kvs =>
    match assocGetLast kvs k with
    | some v => v
    | none => dflt
  | _ => dflt

/-- The five fields `analyze_complaint` reads off the parsed result. -/
structure AnalysisFields where
  key_findings : Json
  recommended_strategies : Json
  risk_assessment : Json
  compliance_notes : Json
  confidence_score : Json

/-- The `.get` defaulting performed by `analyze_complaint` when building the
`AIAnalysis` object: missing keys default to `[]`, `[]`, `{}`, `[]`, `0.0`. -/
def analysisFieldsOf (analysis_result : Json) : AnalysisFields :=
  { key_findings := dictGet analysis_result kKeyFindings (Json.arr [])
    recommended_strategies := dictGet analysis_result kRecommended (Json.arr [])
    risk_assessment := dictGet analysis_result kRisk (Json.obj [])
    compliance_notes := dictGet analysis_result kNotes (Json.arr [])
    confidence_score := dictGet analysis_result kScore (Json.num (JNum.make 0 0)) }

/-! ### Report generator (`src/reports/generator.py`)

The `Dict[str, Any]` report sections are modelled by `PyValue`; `str(value)`
interpolation in f-strings is `pyStrOf` (Python `repr` for nested lists and
dicts). -/

/-- A Python value occurring in the report's `Dict[str, Any]` sections. -/
inductive PyValue where
  | str : List Char → PyValue
  | int : Int → PyValue
  | list : List PyValue → PyValue
  | dict : List (List Char × PyValue) → PyValue

/-- Python `", ".join`. -/
def joinComma (parts : List (List Char)) : List Char :=
  List.intercalate (',' :: ' ' :: []) parts

/-- The single-quote character used by Python `repr` of a string. -/
def squote : Char := Char.ofNat 39

mutual

/-- Python `repr(v)` (quoting of embedded quotes inside strings is not
modelled; the report values contain none). -/
def pyRepr : PyValue → List Char
  | .str s => squote :: s ++ [squote]
  | .int n => intChars n
  | .list xs => '[' :: joinComma (pyReprList xs) ++ [']']
  | .dict kvs => '{' :: joinComma (pyReprPairs kvs) ++ ['}']

/-- `repr` of each element of a list. -/
def pyReprList : List PyValue → List (List Char)
  | [] => []
  | x :: xs => pyRepr x :: pyReprList xs

/-- `repr` of each `key: value` entry of a dict. -/
def pyReprPairs : List (List Char × PyValue) → List (List Char)
  | [] => []
  | p :: ps => ((squote :: p.1 ++ [squote]) ++ ':' :: ' ' :: pyRepr p.2) :: pyReprPairs ps

end

/-- Python `str(v)` as used by f-string interpolation. -/
def pyStrOf (v : PyValue) : List Char :=
  match v with
  | .str s => s
  | .int n => intChars n
  | other => pyRepr other

/-- Python `s.upper()` (ASCII). -/
def pyUpper (s : List Char) : List Char := s.map Char.toUpper

/-- `AIAnalysis`, restricted to the fields the executive-summary builder
reads.  `risk_assessment` is a `Dict[str, Any]`. -/
structure AIAnalysis where
  key_findings : List (List Char)
  risk_assessment : List (List Char × PyValue)

/-- `risk_assessment.get(k, dflt)` followed by f-string conversion (the
source applies `.upper()` directly to the looked-up `level`, assuming it is a
string; the model converts via `str()` first, which agrees on strings). -/
def dictGetStr (m : List (List Char × PyValue)) (k dflt : List Char) : List Char :=
  match m.foldl (fun acc p => if p.1 = k then some p.2 else acc) none with
  | some v => pyStrOf v
  | none => dflt

/-- `"unknown"`. -/
def sUnknown : List Char := "unknown".data

/-- `"COMPLIANT"`. -/
def sCompliant : List Char := "COMPLIANT".data

/-- `"ISSUES IDENTIFIED"`. -/
def sIssuesIdentified : List Char := "ISSUES IDENTIFIED".data

/-- The numbered lines produced by `for i, x in enumerate(xs, i0):
append(f"{i}. {x}")`. -/
def numberedFrom : Nat → List (List Char) → List (List Char)
  | _, [] => []
  | i, x :: xs => (natChars i ++ '.' :: ' ' :: x) :: numberedFrom (i + 1) xs

/-- The first eight `summary_parts` entries of `_generate_executive_summary`,
up to and including the `"KEY FINDINGS:"` heading. -/
def execHeaderLines (complaint : Complaint) : List (List Char) :=
  ["Investigation Report: ".data ++ complaint.complaint_number,
   "Licensee: ".data ++ complaint.licensee_name ++ " (License: ".data ++
     complaint.licensee_license_number ++ ")".data,
   "Status: ".data ++ complaint.status.value,
   [],
   "EXECUTIVE SUMMARY".data,
   "This report summarizes the investigation of complaint ".data ++
     complaint.complaint_number ++ " received on ".data ++
     complaint.received_date.fmtDate ++ ".".data,
   [],
   "KEY FINDINGS:".data]

/-- The five trailing `summary_parts` entries of
`_generate_executive_summary`. -/
def execTailLines (ai : AIAnalysis) (compliance_status : AggregatedVerdict) :
    List (List Char) :=
  [[],
   "RISK ASSESSMENT: ".data ++ pyUpper (dictGetStr ai.risk_assessment kLevel sUnknown),
   "  Urgency: ".data ++ dictGetStr ai.risk_assessment kUrgency sUnknown,
   [],
   "COMPLIANCE STATUS: ".data ++
     (if compliance_status.overall_compliant then sCompliant else sIssuesIdentified)]

/-- The full `summary_parts` list of `_generate_executive_summary`: header,
then the numbered top-5 key findings, then the tail. -/
def execSummaryLines (complaint : Complaint) (ai : AIAnalysis)
    (compliance_status : AggregatedVerdict) : List (List Char) :=
  execHeaderLines complaint ++ numberedFrom 1 (ai.key_findings.take 5) ++
    execTailLines ai compliance_status

/-- `ReportGenerator._generate_executive_summary`. -/
def generate_executive_summary (complaint : Complaint) (ai : AIAnalysis)
    (compliance_status : AggregatedVerdict) : List Char :=
  joinNl (execSummaryLines complaint ai compliance_status)

/-- `"HIPAA COMPLIANCE ISSUES: "`. -/
def lblHipaaIssues : List Char := "HIPAA COMPLIANCE ISSUES: ".data

/-- `"HIPAA: Compliant"`. -/
def lblHipaaOk : List Char := "HIPAA: Compliant".data

/-- `"42 CFR PART 2 COMPLIANCE ISSUES: "`. -/
def lblCfr2Issues : List Char := "42 CFR PART 2 COMPLIANCE ISSUES: ".data

/-- `"42 CFR PART 2 WARNINGS: "`. -/
def lblCfr2Warn : List Char := "42 CFR PART 2 WARNINGS: ".data

/-- `"42 CFR Part 2: Compliant"`. -/
def lblCfr2Ok : List Char := "42 CFR Part 2: Compliant".data

/-- `"ND STATE LAW COMPLIANCE ISSUES: "`. -/
def lblNdIssues : List Char := "ND STATE LAW COMPLIANCE ISSUES: ".data

/-- `"ND State Law: Compliant"`. -/
def lblNdOk : List Char := "ND State Law: Compliant".data

/-- `"GENERAL WARNINGS: "`. -/
def lblGeneralWarn : List Char := "GENERAL WARNINGS: ".data

/-- `ReportGenerator._prepare_compliance_considerations`.  Note: only the
CFR2 rule set has a warnings branch; the HIPAA and ND branches are two-way. -/
def prepare_compliance_considerations (compliance_status : AggregatedVerdict) :
    List (List Char) :=
  let l1 : List (List Char) :=
    if compliance_status.hipaa.compliant = false then
      [lblHipaaIssues ++ joinSemi compliance_status.hipaa.issues]
    else [lblHipaaOk]
  let l2 : List (List Char) :=
    if compliance_status.cfr2.compliant = false then
      [lblCfr2Issues ++ joinSemi compliance_status.cfr2.issues]
    else if compliance_status.cfr2.warnings.isEmpty = false then
      [lblCfr2Warn ++ joinSemi compliance_status.cfr2.warnings]
    else [lblCfr2Ok]
  let l3 : List (List Char) :=
    if compliance_status.nd_state_law.compliant = false then
      [lblNdIssues ++ joinSemi compliance_status.nd_state_law.issues]
    else [lblNdOk]
  let l4 : List (List Char) :=
    if compliance_status.all_warnings.isEmpty = false then
      [lblGeneralWarn ++ joinSemi compliance_status.all_warnings]
    else []
  l1 ++ l2 ++ l3 ++ l4

/-- `InvestigationReport`, with the `Dict[str, Any]` sections as `PyValue`
association lists (Python dicts iterate in insertion order, which the list
order models). -/
structure InvestigationReport where
  complaint_id : List Char
  report_date : PyDateTime
  executive_summary : List Char
  complaint_details : List (List Char × PyValue)
  response_analysis : List (List Char × PyValue)
  key_findings : List (List Char)
  recommended_strategies : List (List Char)
  compliance_considerations : List (List Char)
  risk_assessment : List (List Char × PyValue)
  generated_by : List Char
  version : Int

/-- The 80-character `=` banner. -/
def banner : List Char := List.replicate 80 '='

/-- One complaint-details entry rendered by `export_report_to_text`
(list-valued fields become a label line plus indented bullets). -/
def detailLines (kv : List Char × PyValue) : List (List Char) :=
  match kv.2 with
  | .list items => (kv.1 ++ [':']) :: items.map (fun it => "  - ".data ++ pyStrOf it)
  | v => [kv.1 ++ ':' :: ' ' :: pyStrOf v]

/-- One response-analysis entry rendered by `export_report_to_text` (also
supports one level of nested dict). -/
def respLines (kv : List Char × PyValue) : List (List Char) :=
  match kv.2 with
  | .list items => (kv.1 ++ [':']) :: items.map (fun it => "  - ".data ++ pyStrOf it)
  | .dict kvs =>
      (kv.1 ++ [':']) :: kvs.map (fun p => ' ' :: ' ' :: p.1 ++ ':' :: ' ' :: pyStrOf p.2)
  | v => [kv.1 ++ ':' :: ' ' :: pyStrOf v]

/-- `ReportGenerator.export_report_to_text`. -/
def export_report_to_text (report : InvestigationReport) : List Char :=
  let lines1 : List (List Char) :=
    [banner, "INVESTIGATION REPORT".data, banner,
     "Report Date: ".data ++ report.report_date.fmtFull,
     "Complaint ID: ".data ++ report.complaint_id,
     "Generated By: ".data ++ report.generated_by,
     "Version: ".data ++ intChars report.version,
     [], report.executive_summary, [],
     banner, "COMPLAINT DETAILS".data, banner]
  let lines2 := (report.complaint_details.map detailLines).flatten
  let lines3 : List (List Char) := [[], banner, "RESPONSE ANALYSIS".data, banner]
  let lines4 := (report.response_analysis.map respLines).flatten
  let lines5 : List (List Char) := [[], banner, "KEY FINDINGS".data, banner]
  let lines6 := numberedFrom 1 report.key_findings
  let lines7 : List (List Char) := [[], banner, "RECOMMENDED STRATEGIES".data, banner]
  let lines8 := numberedFrom 1 report.recommended_strategies
  let lines9 : List (List Char) := [[], banner, "COMPLIANCE CONSIDERATIONS".data, banner]
  let lines10 := report.compliance_considerations.map (fun c0 => '-' :: ' ' :: c0)
  let lines11 : List (List Char) := [[], banner, "RISK ASSESSMENT".data, banner]
  let lines12 := report.risk_assessment.map (fun p => p.1 ++ ':' :: ' ' :: pyStrOf p.2)
  let lines13 : List (List Char) := [[], banner, "END OF REPORT".data, banner]
  joinNl (lines1 ++ lines2 ++ lines3 ++ lines4 ++ lines5 ++ lines6 ++ lines7 ++
    lines8 ++ lines9 ++ lines10 ++ lines11 ++ lines12 ++ lines13)

/-! ### Helper lemmas -/

/-- `isEmpty` characterization. -/
lemma isEmpty_true_iff {α : Type} (l : List α) : l.isEmpty = true ↔ l = [] := by
  cases l <;> simp

/-- A list with a member is not empty. -/
lemma isEmpty_false_of_mem {α : Type} {l : List α} {a : α} (h : a ∈ l) :
    l.isEmpty = false := by
  cases l with
  | nil => cases h
  | cons x xs => rfl

/-! ### Claim theorems -/

/-- C1: for every retention setting, complaint and document list, the
aggregated verdict's `overall_compliant` flag is the conjunction of the three
sub-verdicts' `compliant` flags (evaluated by the three named rule sets), and
the concatenated issues and warnings lists are the health-privacy entries
followed by the substance-use entries followed by the state-law entries. -/
theorem claim_C1 (retention_days : Int) (complaint : Complaint) (documents : List Document) :
    (comprehensive_compliance_check retention_days complaint documents).overall_compliant
        = ((check_hipaa_compliance complaint documents).compliant &&
           (check_cfr2_compliance complaint documents).compliant &&
           (check_nd_state_law_compliance retention_days complaint).compliant)
    ∧ ((comprehensive_compliance_check retention_days complaint documents).overall_compliant
          = true ↔
        (comprehensive_compliance_check retention_days complaint documents).hipaa.compliant
          = true ∧
        (comprehensive_compliance_check retention_days complaint documents).cfr2.compliant
          = true ∧
        (comprehensive_compliance_check retention_days complaint documents).nd_state_law.compliant
          = true)
    ∧ (comprehensive_compliance_check retention_days complaint documents).all_issues
        = (comprehensive_compliance_check retention_days complaint documents).hipaa.issues ++
          (comprehensive_compliance_check retention_days complaint documents).cfr2.issues ++
          (comprehensive_compliance_check retention_days complaint documents).nd_state_law.issues
    ∧ (comprehensive_compliance_check retention_days complaint documents).all_warnings
        = (comprehensive_compliance_check retention_days complaint documents).hipaa.warnings ++
          (comprehensive_compliance_check retention_days complaint documents).cfr2.warnings ++
          (comprehensive_compliance_check retention_days complaint documents).nd_state_law.warnings := by
  refine ⟨rfl, ?_, rfl, rfl⟩
  simp [comprehensive_compliance_check, Bool.and_eq_true, and_assoc]


/-- C2: the health-privacy evaluator emits the issue
`"PHI documents must be encrypted"` exactly once when some PHI-classified
document is unencrypted, emits no issue when every PHI-classified document is
encrypted (or none exists), and never emits warnings. -/
theorem claim_C2 (complaint : Complaint) (documents : List Document) :
    ((∃ d ∈ documents, d.security_classification = SecurityClassification.phi ∧
        d.encrypted = false) →
      (check_hipaa_compliance complaint documents).issues = [phiIssueMsg])
    ∧ ((∀ d ∈ documents, d.security_classification = SecurityClassification.phi →
        d.encrypted = true) →
      (check_hipaa_compliance complaint documents).issues = [])
    ∧ (check_hipaa_compliance complaint documents).warnings = [] := by
  refine ⟨?_, ?_, rfl⟩
  · rintro ⟨d, hd, hphi, henc⟩
    have hA : d ∈ documents.filter
        (fun d => decide (d.security_classification = SecurityClassification.phi)) :=
      List.mem_filter.2 ⟨hd, by simp [hphi]⟩
    have hB : d ∈ (documents.filter
        (fun d => decide (d.security_classification = SecurityClassification.phi))).filter
        (fun d => d.encrypted = false) :=
      List.mem_filter.2 ⟨hA, by simp [henc]⟩
    simp only [check_hipaa_compliance, isEmpty_false_of_mem hA, isEmpty_false_of_mem hB,
      Bool.false_eq_true, if_false]
  · intro hall
    have h2 : (documents.filter
        (fun d => decide (d.security_classification = SecurityClassification.phi))).filter
        (fun d => d.encrypted = false) = [] := by
      rw [List.filter_eq_nil_iff]
      intro d hdf
      have hmem := List.mem_filter.1 hdf
      have hphi : d.security_classification = SecurityClassification.phi := by
        simpa using hmem.2
      have := hall d hmem.1 hphi
      simp [this]
    cases hempty : (documents.filter
        (fun d => decide (d.security_classification = SecurityClassification.phi))).isEmpty with
    | true => simp only [check_hipaa_compliance, hempty, if_true]
    | false => simp only [check_hipaa_compliance, hempty, Bool.false_eq_true, if_false, h2,
        List.isEmpty_nil, if_true]

/-- C3: the substance-use evaluator emits the consent warning whenever at
least one CFR2-classified document exists (independent of encryption), emits
the encryption issue exactly when some CFR2-classified document is
unencrypted, and returns a compliant, empty verdict when no CFR2-classified
document exists. -/
theorem claim_C3 (complaint : Complaint) (documents : List Document) :
    ((∃ d ∈ documents, d.security_classification = SecurityClassification.cfr2) →
      (check_cfr2_compliance complaint documents).warnings = [cfr2WarningMsg])
    ∧ (cfr2IssueMsg ∈ (check_cfr2_compliance complaint documents).issues ↔
        ∃ d ∈ documents, d.security_classification = SecurityClassification.cfr2 ∧
          d.encrypted = false)
    ∧ ((¬ ∃ d ∈ documents, d.security_classification = SecurityClassification.cfr2) →
        (check_cfr2_compliance complaint documents).compliant = true
        ∧ (check_cfr2_compliance complaint documents).issues = []
        ∧ (check_cfr2_compliance complaint documents).warnings = []) := by
  refine ⟨?_, ?_, ?_⟩
  · rintro ⟨d, hd, hcfr⟩
    have hA : d ∈ documents.filter
        (fun d => decide (d.security_classification = SecurityClassification.cfr2)) :=
      List.mem_filter.2 ⟨hd, by simp [hcfr]⟩
    simp only [check_cfr2_compliance, isEmpty_false_of_mem hA, Bool.false_eq_true, if_false]
  · constructor
    · intro hmem
      by_contra hnex
      have h2 : (documents.filter
          (fun d => decide (d.security_classification = SecurityClassification.cfr2))).filter
          (fun d => d.encrypted = false) = [] := by
        rw [List.filter_eq_nil_iff]
        intro d hdf
        have hm := List.mem_filter.1 hdf
        intro hdec
        exact hnex ⟨d, hm.1, by simpa using hm.2, by simpa using hdec⟩
      cases hempty : (documents.filter
          (fun d => decide (d.security_classification = SecurityClassification.cfr2))).isEmpty with
      | true =>
        simp only [check_cfr2_compliance, hempty, if_true] at hmem
        cases hmem
      | false =>
        simp only [check_cfr2_compliance, hempty, Bool.false_eq_true, if_false, h2,
          List.isEmpty_nil, if_true] at hmem
        cases hmem
    · rintro ⟨d, hd, hcfr, henc⟩
      have hA : d ∈ documents.filter
          (fun d => decide (d.security_classification = SecurityClassification.cfr2)) :=
        List.mem_filter.2 ⟨hd, by simp [hcfr]⟩
      have hB : d ∈ (documents.filter
          (fun d => decide (d.security_classification = SecurityClassification.cfr2))).filter
          (fun d => d.encrypted = false) :=
        List.mem_filter.2 ⟨hA, by simp [henc]⟩
      simp only [check_cfr2_compliance, isEmpty_false_of_mem hA, isEmpty_false_of_mem hB,
        Bool.false_eq_true, if_false]
      exact List.mem_singleton.2 rfl
  · intro hnone
    have h0 : documents.filter
        (fun d => decide (d.security_classification = SecurityClassification.cfr2)) = [] := by
      rw [List.filter_eq_nil_iff]
      intro d hd hdec
      exact hnone ⟨d, hd, by simpa using hdec⟩
    refine ⟨?_, ?_, ?_⟩ <;>
      simp [check_cfr2_compliance, h0]

/-- `"complaint_number"`. -/
def fCN : List Char := "complaint_number".data

/-- `"licensee_name"`. -/
def fLN : List Char := "licensee_name".data

/-- `"licensee_license_number"`. -/
def fLLN : List Char := "licensee_license_number".data

/-- `"complaint_description"`. -/
def fCD : List Char := "complaint_description".data

/-- The state-law issues list is one `missingFieldMsg` per empty required
field, in declaration order. -/
lemma nd_issues_characterization (retention_days : Int) (complaint : Complaint) :
    (check_nd_state_law_compliance retention_days complaint).issues =
      (if complaint.complaint_number = [] then [missingFieldMsg fCN] else []) ++
      (if complaint.licensee_name = [] then [missingFieldMsg fLN] else []) ++
      (if complaint.licensee_license_number = [] then [missingFieldMsg fLLN] else []) ++
      (if complaint.complaint_description = [] then [missingFieldMsg fCD] else []) := by
  by_cases h1 : complaint.complaint_number = [] <;>
  by_cases h2 : complaint.licensee_name = [] <;>
  by_cases h3 : complaint.licensee_license_number = [] <;>
  by_cases h4 : complaint.complaint_description = [] <;>
    simp [check_nd_state_law_compliance, fCN, fLN, fLLN, fCD, h1, h2, h3, h4,
      isEmpty_true_iff]

/-- C4: the state-law evaluator totals: each of the four required fields
contributes the issue naming it exactly when that field is empty; the
retention warning (naming the configured value) is present exactly when the
configured retention is below 2555 days; and the verdict is compliant exactly
when all four required fields are non-empty. -/
theorem claim_C4 (retention_days : Int) (complaint : Complaint) :
    (missingFieldMsg fCN ∈
        (check_nd_state_law_compliance retention_days complaint).issues ↔
      complaint.complaint_number = [])
    ∧ (missingFieldMsg fLN ∈
        (check_nd_state_law_compliance retention_days complaint).issues ↔
      complaint.licensee_name = [])
    ∧ (missingFieldMsg fLLN ∈
        (check_nd_state_law_compliance retention_days complaint).issues ↔
      complaint.licensee_license_number = [])
    ∧ (missingFieldMsg fCD ∈
        (check_nd_state_law_compliance retention_days complaint).issues ↔
      complaint.complaint_description = [])
    ∧ (ndRetentionMsg retention_days ∈
        (check_nd_state_law_compliance retention_days complaint).warnings ↔
      retention_days < 2555)
    ∧ ((check_nd_state_law_compliance retention_days complaint).compliant = true ↔
      (complaint.complaint_number ≠ [] ∧ complaint.licensee_name ≠ [] ∧
        complaint.licensee_license_number ≠ [] ∧ complaint.complaint_description ≠ [])) := by
  refine ⟨?_, ?_, ?_, ?_, ?_, ?_⟩
  · rw [nd_issues_characterization]
    by_cases h1 : complaint.complaint_number = [] <;>
    by_cases h2 : complaint.licensee_name = [] <;>
    by_cases h3 : complaint.licensee_license_number = [] <;>
    by_cases h4 : complaint.complaint_description = [] <;>
      simp [h1, h2, h3, h4] <;> decide
  · rw [nd_issues_characterization]
    by_cases h1 : complaint.complaint_number = [] <;>
    by_cases h2 : complaint.licensee_name = [] <;>
    by_cases h3 : complaint.licensee_license_number = [] <;>
    by_cases h4 : complaint.complaint_description = [] <;>
      simp [h1, h2, h3, h4] <;> decide
  · rw [nd_issues_characterization]
    by_cases h1 : complaint.complaint_number = [] <;>
    by_cases h2 : complaint.licensee_name = [] <;>
    by_cases h3 : complaint.licensee_license_number = [] <;>
    by_cases h4 : complaint.complaint_description = [] <;>
      simp [h1, h2, h3, h4] <;> decide
  · rw [nd_issues_characterization]
    by_cases h1 : complaint.complaint_number = [] <;>
    by_cases h2 : complaint.licensee_name = [] <;>
    by_cases h3 : complaint.licensee_license_number = [] <;>
    by_cases h4 : complaint.complaint_description = [] <;>
      simp [h1, h2, h3, h4] <;> decide
  · by_cases h5 : retention_days < 2555 <;>
      simp [check_nd_state_law_compliance, h5]
  · by_cases h1 : complaint.complaint_number = [] <;>
    by_cases h2 : complaint.licensee_name = [] <;>
    by_cases h3 : complaint.licensee_license_number = [] <;>
    by_cases h4 : complaint.complaint_description = [] <;>
      simp [check_nd_state_law_compliance, h1, h2, h3, h4, isEmpty_true_iff]

/-- C4 witness: a complaint with an empty description and a 2000-day
retention setting yields the description issue, the retention warning and a
non-compliant verdict. -/
theorem claim_C4_witness :
    missingFieldMsg fCD ∈
        (check_nd_state_law_compliance 2000
          ⟨"C-1".data, "Dr".data, "L-1".data, [], ComplaintStatus.received,
            ⟨2024, 1, 15, 10, 0, 0⟩⟩).issues
    ∧ ndRetentionMsg 2000 ∈
        (check_nd_state_law_compliance 2000
          ⟨"C-1".data, "Dr".data, "L-1".data, [], ComplaintStatus.received,
            ⟨2024, 1, 15, 10, 0, 0⟩⟩).warnings
    ∧ (check_nd_state_law_compliance 2000
          ⟨"C-1".data, "Dr".data, "L-1".data, [], ComplaintStatus.received,
            ⟨2024, 1, 15, 10, 0, 0⟩⟩).compliant = false := by
  have h := claim_C4 2000
    ⟨"C-1".data, "Dr".data, "L-1".data, [], ComplaintStatus.received,
      ⟨2024, 1, 15, 10, 0, 0⟩⟩
  refine ⟨h.2.2.2.1.2 rfl, h.2.2.2.2.1.2 (by decide), ?_⟩
  cases hc : (check_nd_state_law_compliance 2000
      ⟨"C-1".data, "Dr".data, "L-1".data, [], ComplaintStatus.received,
        ⟨2024, 1, 15, 10, 0, 0⟩⟩).compliant
  · rfl
  · exact absurd ((h.2.2.2.2.2).1 hc).2.2.2 (by simp)

/-- A fully populated complaint used by concrete instances. -/
def complaintEx : Complaint :=
  ⟨"COMP-2024-001".data, "Dr. John Doe".data, "ND-12345".data,
    "Alleged violation".data, ComplaintStatus.received, ⟨2024, 1, 15, 10, 0, 0⟩⟩

/-- C2 witness: one unencrypted PHI document yields exactly the issue; one
encrypted PHI document yields no issue; warnings are always empty. -/
theorem claim_C2_witness :
    (check_hipaa_compliance complaintEx [⟨SecurityClassification.phi, false⟩]).issues
        = [phiIssueMsg]
    ∧ (check_hipaa_compliance complaintEx [⟨SecurityClassification.phi, true⟩]).issues = []
    ∧ (check_hipaa_compliance complaintEx [⟨SecurityClassification.phi, false⟩]).warnings
        = [] := by
  refine ⟨(claim_C2 complaintEx [⟨SecurityClassification.phi, false⟩]).1
    ⟨⟨SecurityClassification.phi, false⟩, by simp, rfl, rfl⟩, ?_, ?_⟩
  · exact (claim_C2 complaintEx [⟨SecurityClassification.phi, true⟩]).2.1
      (by intro d hd hphi; simp at hd; simp [hd])
  · exact (claim_C2 complaintEx [⟨SecurityClassification.phi, false⟩]).2.2

/-- C3 witness: one unencrypted CFR2 document yields the consent warning and
the encryption issue; with no CFR2 documents the verdict is compliant and
empty. -/
theorem claim_C3_witness :
    (check_cfr2_compliance complaintEx [⟨SecurityClassification.cfr2, false⟩]).warnings
        = [cfr2WarningMsg]
    ∧ cfr2IssueMsg ∈
        (check_cfr2_compliance complaintEx [⟨SecurityClassification.cfr2, false⟩]).issues
    ∧ (check_cfr2_compliance complaintEx []).compliant = true
    ∧ (check_cfr2_compliance complaintEx []).issues = []
    ∧ (check_cfr2_compliance complaintEx []).warnings = [] := by
  have hnone := (claim_C3 complaintEx []).2.2 (by rintro ⟨d, hd, _⟩; cases hd)
  refine ⟨(claim_C3 complaintEx [⟨SecurityClassification.cfr2, false⟩]).1
      ⟨⟨SecurityClassification.cfr2, false⟩, by simp, rfl⟩,
    (claim_C3 complaintEx [⟨SecurityClassification.cfr2, false⟩]).2.1.2
      ⟨⟨SecurityClassification.cfr2, false⟩, by simp, rfl, rfl⟩,
    hnone.1, hnone.2.1, hnone.2.2⟩

/-! ### Parser lemmas for C5 and C6 -/

/-- Members of `dropWhile` are members of the list. -/
lemma mem_of_mem_dropWhile {α : Type} {p : α → Bool} :
    ∀ {l : List α} {a : α}, a ∈ l.dropWhile p → a ∈ l := by
  intro l
  induction l with
  | nil => intro a h; simpa using h
  | cons x xs ih =>
    intro a h
    by_cases hp : p x = true
    · rw [List.dropWhile_cons_of_pos hp] at h
      exact List.mem_cons_of_mem x (ih h)
    · rw [List.dropWhile_cons_of_neg hp] at h
      exact h

/-- Members of `pyStrip` are members of the string. -/
lemma mem_of_mem_pyStrip {s : List Char} {a : Char} (h : a ∈ pyStrip s) : a ∈ s := by
  unfold pyStrip at h
  rw [List.mem_reverse] at h
  have h2 := mem_of_mem_dropWhile h
  rw [List.mem_reverse] at h2
  exact mem_of_mem_dropWhile h2

/-- Members of a Python slice are members of the string. -/
lemma mem_of_mem_pySlice {s : List Char} {a b : Int} {c : Char}
    (h : c ∈ pySlice s a b) : c ∈ s := by
  unfold pySlice at h
  have h2 := (List.drop_sublist _ _).mem h
  exact (List.take_sublist _ _).mem h2

/-- Members of the extracted JSON text are members of the response text. -/
lemma mem_of_mem_extractJsonText {t : List Char} {c : Char}
    (h : c ∈ extractJsonText t) : c ∈ t := by
  unfold extractJsonText at h
  have h1 := mem_of_mem_pyStrip h
  split at h1
  · exact mem_of_mem_pySlice (mem_of_mem_pyStrip h1)
  · split at h1
    · exact mem_of_mem_pySlice (mem_of_mem_pyStrip h1)
    · exact mem_of_mem_pyStrip h1

/-- The head of a list is a member. -/
lemma head?_mem {α : Type} {l : List α} {a : α} (h : l.head? = some a) : a ∈ l := by
  cases l with
  | nil => cases h
  | cons x xs =>
    injection h with h
    rw [← h]
    exact List.mem_cons_self x xs

/-- `findAux` for a single absent character finds nothing. -/
lemma findAux_single_none {c : Char} {l : List Char} (h : c ∉ l) :
    ∀ i, findAux [c] l i = none := by
  induction l with
  | nil => intro i; rfl
  | cons x xs ih =>
    intro i
    have hne : c ≠ x := fun he => h (he ▸ List.mem_cons_self x xs)
    have hx : ([c].isPrefixOf (x :: xs)) = false := by
      simp [List.isPrefixOf, hne]
    unfold findAux
    rw [hx]
    simp only [Bool.false_eq_true, if_false]
    exact ih (fun hm => h (List.mem_cons_of_mem x hm)) (i + 1)

/-- C5: on any text with no brace characters (pure prose), the response
parser returns exactly the literal fallback default. -/
theorem claim_C5 (t : List Char) (h1 : '{' ∉ t) (h2 : '}' ∉ t) :
    parse_analysis_response t = fallbackJson := by
  have hbrace : '{' ∉ extractJsonText t := fun hm => h1 (mem_of_mem_extractJsonText hm)
  have hhead : ¬ (extractJsonText t).head? = some '{' := fun hh => hbrace (head?_mem hh)
  have hfind : pyFind (extractJsonText t) ['{'] 0 = -1 := by
    unfold pyFind
    rw [List.drop_zero, findAux_single_none hbrace 0]
  unfold parse_analysis_response
  rw [if_neg hhead, hfind]
  norm_num

/-- C5 witness: a concrete brace-free reply maps to the fallback default. -/
theorem claim_C5_witness :
    parse_analysis_response ("The complaint needs manual review.".data) = fallbackJson :=
  claim_C5 ("The complaint needs manual review.".data) (by decide) (by decide)

/-- The C10 input: a lone opening fence marker followed by a complete JSON
object, with no closing fence. -/
def cexInput10 : List Char := "```json\n\x7b\"a\": \"b\"\x7d".data

/-- C10: with an unterminated fenced block, the closing-fence search fails
(`-1`), the Python slice `[json_start:-1]` therefore drops the final
character of the remaining text, the truncated text no longer parses, and
the parser falls back to the default — even though the text after the fence
marker is a complete, valid JSON object. -/
theorem claim_C10 :
    pyFind cexInput10 fenceTag 7 = -1
    ∧ pySlice cexInput10 7 (-1) =
        ('\n' :: '{' :: '"' :: 'a' :: '"' :: ':' :: ' ' :: '"' :: 'b' :: '"' :: [])
    ∧ extractJsonText cexInput10 =
        ('{' :: '"' :: 'a' :: '"' :: ':' :: ' ' :: '"' :: 'b' :: '"' :: [])
    ∧ json_loads (extractJsonText cexInput10) = none
    ∧ json_loads (pySlice cexInput10 8 (cexInput10.length : Int)) =
        some (Json.obj [(['a'], Json.str ['b'])])
    ∧ parse_analysis_response cexInput10 = fallbackJson :=
  ⟨rfl, rfl, rfl, rfl, rfl, rfl⟩

/-- `skipWs` is the identity on a list whose head is not JSON whitespace. -/
lemma skipWs_eq_self_of_head {l : List Char}
    (h : ∀ c, l.head? = some c → jsonWs c = false) : skipWs l = l := by
  cases l with
  | nil => rfl
  | cons x xs =>
    unfold skipWs
    rw [h x rfl]
    simp

/-- The head of `dropWhile p` does not satisfy `p`. -/
lemma head?_dropWhile_false {α : Type} {p : α → Bool} :
    ∀ {l : List α} {a : α}, (l.dropWhile p).head? = some a → p a = false := by
  intro l
  induction l with
  | nil => intro a h; cases h
  | cons x xs ih =>
    intro a h
    by_cases hp : p x = true
    · rw [List.dropWhile_cons_of_pos hp] at h
      exact ih h
    · rw [List.dropWhile_cons_of_neg hp] at h
      injection h with h
      rw [← h]
      exact Bool.not_eq_true _ ▸ Bool.of_not_eq_true hp

/-- The head of an append of a list with some head. -/
lemma head?_append_some {α : Type} {l l2 : List α} {a : α} (h : l.head? = some a) :
    (l ++ l2).head? = some a := by
  cases l with
  | nil => cases h
  | cons x xs => exact h

/-- The head of a stripped string is not Python whitespace. -/
lemma head_pyStrip_not_space {s : List Char} {c : Char}
    (h : (pyStrip s).head? = some c) : pyIsSpace c = false := by
  have hdecomp : s.dropWhile pyIsSpace =
      pyStrip s ++ ((s.dropWhile pyIsSpace).reverse.takeWhile pyIsSpace).reverse := by
    unfold pyStrip
    rw [← List.reverse_append, List.takeWhile_append_dropWhile, List.reverse_reverse]
  exact head?_dropWhile_false (hdecomp ▸ head?_append_some h)

/-- JSON whitespace is Python whitespace. -/
lemma jsonWs_false_of_pyIsSpace_false {c : Char} (h : pyIsSpace c = false) :
    jsonWs c = false := by
  unfold pyIsSpace at h
  unfold jsonWs
  simp only [Bool.or_eq_false_iff, decide_eq_false_iff_not] at h ⊢
  tauto

/-- The extracted JSON text is strip-normalized: `skipWs` is the identity on
it. -/
lemma skipWs_extractJsonText (t : List Char) :
    skipWs (extractJsonText t) = extractJsonText t := by
  apply skipWs_eq_self_of_head
  intro c hc
  have hps : ∃ x, extractJsonText t = pyStrip x := ⟨_, rfl⟩
  obtain ⟨x, hx⟩ := hps
  rw [hx] at hc
  exact jsonWs_false_of_pyIsSpace_false (head_pyStrip_not_space hc)

/-- `parseElems` and `parseElemsStart` only produce arrays. -/
lemma parseElems_shape (f : Nat) :
    (∀ s acc v r, parseElems f s acc = some (v, r) → ∃ xs, v = Json.arr xs)
    ∧ (∀ s v r, parseElemsStart f s = some (v, r) → ∃ xs, v = Json.arr xs) := by
  induction f with
  | zero =>
    constructor
    · intro s acc v r h; cases h
    · intro s v r h; cases h
  | succ f ih =>
    constructor
    · intro s acc v r h
      unfold parseElems at h
      split at h
      · split at h
        · exact ih.1 _ _ _ _ h
        · injection h with h
          injection h with h1 h2
          exact ⟨_, h1.symm⟩
        · cases h
      · cases h
    · intro s v r h
      unfold parseElemsStart at h
      split at h
      · injection h with h
        injection h with h1 h2
        exact ⟨_, h1.symm⟩
      · exact ih.1 _ _ _ _ h

/-- A successful `parseValue` returning an object means the input starts
with `{`. -/
lemma parseValue_obj_head {f : Nat} {l : List Char} {kvs : List (List Char × Json)}
    {r : List Char} (h : parseValue f l = some (Json.obj kvs, r)) :
    l.head? = some '{' := by
  cases f with
  | zero => cases h
  | succ f =>
    cases l with
    | nil => cases h
    | cons c t =>
      unfold parseValue at h
      dsimp only at h
      by_cases h1 : c = '{'
      · rw [h1]; rfl
      · rw [if_neg h1] at h
        by_cases h2 : c = '['
        · rw [if_pos h2] at h
          obtain ⟨xs, hxs⟩ := (parseElems_shape f).2 _ _ _ h
          cases hxs
        · rw [if_neg h2] at h
          by_cases h3 : c = '"'
          · rw [if_pos h3] at h
            cases hsb : parseStringBody (t.length + 1) t with
            | none => rw [hsb] at h; cases h
            | some p => rw [hsb] at h; cases h
          · rw [if_neg h3] at h
            by_cases h4 : c = 't'
            · rw [if_pos h4] at h
              split at h
              · cases h
              · cases h
            · rw [if_neg h4] at h
              by_cases h5 : c = 'f'
              · rw [if_pos h5] at h
                split at h
                · cases h
                · cases h
              · rw [if_neg h5] at h
                by_cases h6 : c = 'n'
                · rw [if_pos h6] at h
                  split at h
                  · cases h
                  · cases h
                · rw [if_neg h6] at h
                  cases hnum : parseNumber (c :: t) with
                  | none => rw [hnum] at h; cases h
                  | some p => rw [hnum] at h; cases h

/-- C6: whenever the extracted text parses as a JSON object, the parser
returns exactly that object (the fallback default is not used), and each of
the five fields read off it defaults to `[]`, `[]`, `{}`, `[]`, `0.0`
respectively when its key is missing. -/
theorem claim_C6 (t : List Char) (kvs : List (List Char × Json))
    (h : json_loads (extractJsonText t) = some (Json.obj kvs)) :
    parse_analysis_response t = Json.obj kvs
    ∧ (assocGetLast kvs kKeyFindings = none →
        (analysisFieldsOf (Json.obj kvs)).key_findings = Json.arr [])
    ∧ (assocGetLast kvs kRecommended = none →
        (analysisFieldsOf (Json.obj kvs)).recommended_strategies = Json.arr [])
    ∧ (assocGetLast kvs kRisk = none →
        (analysisFieldsOf (Json.obj kvs)).risk_assessment = Json.obj [])
    ∧ (assocGetLast kvs kNotes = none →
        (analysisFieldsOf (Json.obj kvs)).compliance_notes = Json.arr [])
    ∧ (assocGetLast kvs kScore = none →
        (analysisFieldsOf (Json.obj kvs)).confidence_score = Json.num (JNum.make 0 0)) := by
  have hhead : (extractJsonText t).head? = some '{' := by
    unfold json_loads at h
    dsimp only at h
    rw [skipWs_extractJsonText] at h
    cases hp : parseValue ((extractJsonText t).length + 1) (extractJsonText t) with
    | none => rw [hp] at h; cases h
    | some p =>
      rw [hp] at h
      rcases p with ⟨v, rest⟩
      dsimp only at h
      split at h
      · injection h with h
        exact parseValue_obj_head (h ▸ hp)
      · cases h
  refine ⟨?_, ?_, ?_, ?_, ?_, ?_⟩
  · simp only [parse_analysis_response]
    rw [if_pos hhead, h]
  all_goals intro hnone
  all_goals simp [analysisFieldsOf, dictGet, hnone]

/-- The C6 input: the claim's well-formed fenced JSON reply. -/
def wfInput6 : List Char :=
  "```json\n\x7b\"key_findings\": [\"a\"], \"confidence_score\": 0.9\x7d\n```".data

/-- The object parsed from `wfInput6` (`0.9` is the decimal `9·10⁻¹`). -/
def wfParsed6 : List (List Char × Json) :=
  [(kKeyFindings, Json.arr [Json.str ['a']]), (kScore, Json.num (JNum.make 9 (-1)))]

/-- C6 witness: on the claim's concrete input the parser yields exactly
`key_findings=["a"]`, `confidence_score=0.9`, with the other three fields
defaulting to empty list / empty record / empty list. -/
theorem claim_C6_witness :
    json_loads (extractJsonText wfInput6) = some (Json.obj wfParsed6)
    ∧ parse_analysis_response wfInput6 = Json.obj wfParsed6
    ∧ (analysisFieldsOf (Json.obj wfParsed6)).key_findings = Json.arr [Json.str ['a']]
    ∧ (analysisFieldsOf (Json.obj wfParsed6)).recommended_strategies = Json.arr []
    ∧ (analysisFieldsOf (Json.obj wfParsed6)).risk_assessment = Json.obj []
    ∧ (analysisFieldsOf (Json.obj wfParsed6)).compliance_notes = Json.arr []
    ∧ (analysisFieldsOf (Json.obj wfParsed6)).confidence_score =
        Json.num (JNum.make 9 (-1)) := by
  have h0 : json_loads (extractJsonText wfInput6) = some (Json.obj wfParsed6) := rfl
  have h := claim_C6 wfInput6 wfParsed6 h0
  exact ⟨h0, h.1, rfl, h.2.2.1 rfl, h.2.2.2.1 rfl, h.2.2.2.2.1 rfl, rfl⟩

/-- `numberedFrom` is the enumeration map. -/
lemma numberedFrom_eq_enumFrom (k : Nat) (xs : List (List Char)) :
    numberedFrom k xs =
      (List.enumFrom k xs).map (fun p => natChars p.1 ++ '.' :: ' ' :: p.2) := by
  induction xs generalizing k with
  | nil => rfl
  | cons x xs ih => simp [numberedFrom, List.enumFrom, ih]

/-- `numberedFrom` preserves length. -/
lemma numberedFrom_length (k : Nat) (xs : List (List Char)) :
    (numberedFrom k xs).length = xs.length := by
  induction xs generalizing k with
  | nil => rfl
  | cons x xs ih => simp [numberedFrom, ih]

/-- C7: in the executive summary, the lines after the eight header lines
start with exactly `min n 5` numbered findings — the first five key findings
in input order, numbered from 1 — followed by the five tail lines, whose
last line reads `COMPLIANCE STATUS: COMPLIANT` iff the aggregated verdict is
overall-compliant and `COMPLIANCE STATUS: ISSUES IDENTIFIED` otherwise. -/
theorem claim_C7 (complaint : Complaint) (ai : AIAnalysis) (st : AggregatedVerdict) :
    ((execSummaryLines complaint ai st).drop 8).take (min ai.key_findings.length 5)
        = (List.enumFrom 1 (ai.key_findings.take 5)).map
            (fun p => natChars p.1 ++ '.' :: ' ' :: p.2)
    ∧ ((List.enumFrom 1 (ai.key_findings.take 5)).map
          (fun p => natChars p.1 ++ '.' :: ' ' :: p.2)).length
        = min ai.key_findings.length 5
    ∧ ((execSummaryLines complaint ai st).drop 8).drop (min ai.key_findings.length 5)
        = execTailLines ai st
    ∧ (execTailLines ai st).getLast? = some ("COMPLIANCE STATUS: ".data ++
        (if st.overall_compliant then sCompliant else sIssuesIdentified))
    ∧ generate_executive_summary complaint ai st = joinNl (execSummaryLines complaint ai st) := by
  have hB : (numberedFrom 1 (ai.key_findings.take 5)).length
      = min ai.key_findings.length 5 := by
    rw [numberedFrom_length, List.length_take, Nat.min_comm]
  have hdrop : (execSummaryLines complaint ai st).drop 8
      = numberedFrom 1 (ai.key_findings.take 5) ++ execTailLines ai st := by
    show ((execHeaderLines complaint ++
        (numberedFrom 1 (ai.key_findings.take 5) ++ execTailLines ai st))).drop 8 = _
    rw [show (8 : Nat) = (execHeaderLines complaint).length from rfl, List.drop_left]
  refine ⟨?_, ?_, ?_, rfl, rfl⟩
  · rw [hdrop, ← hB, List.take_left, numberedFrom_eq_enumFrom]
  · rw [← numberedFrom_eq_enumFrom, hB]
  · rw [hdrop, ← hB, List.drop_left]

/-- `isEmpty` is false iff the list is non-empty. -/
lemma isEmpty_false_iff {α : Type} (l : List α) : l.isEmpty = false ↔ l ≠ [] := by
  cases l <;> simp

/-- C8 (amended): the considerations list has one line per rule set, but
only the CFR2 rule set has a warnings branch — the HIPAA and state-law lines
are two-way (issues line when non-compliant, else `": Compliant"`, even when
that rule set carries warnings) — and a final `GENERAL WARNINGS` line built
from the concatenated warnings is appended iff that list is non-empty. -/
theorem claim_C8 (cs : AggregatedVerdict) :
    (prepare_compliance_considerations cs)[0]?
        = some (if cs.hipaa.compliant = false
            then lblHipaaIssues ++ joinSemi cs.hipaa.issues else lblHipaaOk)
    ∧ (prepare_compliance_considerations cs)[1]?
        = some (if cs.cfr2.compliant = false
            then lblCfr2Issues ++ joinSemi cs.cfr2.issues
            else if cs.cfr2.warnings.isEmpty = false
            then lblCfr2Warn ++ joinSemi cs.cfr2.warnings
            else lblCfr2Ok)
    ∧ (prepare_compliance_considerations cs)[2]?
        = some (if cs.nd_state_law.compliant = false
            then lblNdIssues ++ joinSemi cs.nd_state_law.issues else lblNdOk)
    ∧ (cs.all_warnings ≠ [] →
        (prepare_compliance_considerations cs)[3]?
            = some (lblGeneralWarn ++ joinSemi cs.all_warnings)
        ∧ (prepare_compliance_considerations cs).length = 4)
    ∧ (cs.all_warnings = [] → (prepare_compliance_considerations cs).length = 3) := by
  by_cases h1 : cs.hipaa.compliant = true <;>
  by_cases h2 : cs.cfr2.compliant = true <;>
  by_cases h3 : cs.cfr2.warnings.isEmpty = true <;>
  by_cases h4 : cs.nd_state_law.compliant = true <;>
  by_cases h5 : cs.all_warnings = [] <;>
    simp [prepare_compliance_considerations, h1, h2, h3, h4, h5,
      Bool.not_eq_true, isEmpty_false_iff, isEmpty_true_iff]

/-- C8 witness: with a complete complaint, no documents and a 2000-day
retention setting, the general-warnings line is appended as the fourth
line. -/
theorem claim_C8_witness :
    (prepare_compliance_considerations (comprehensive_compliance_check 2000 complaintEx []))[3]?
        = some (lblGeneralWarn ++
            joinSemi (comprehensive_compliance_check 2000 complaintEx []).all_warnings)
    ∧ (prepare_compliance_considerations
        (comprehensive_compliance_check 2000 complaintEx [])).length = 4 :=
  (claim_C8 (comprehensive_compliance_check 2000 complaintEx [])).2.2.2.1 (by decide)

/-- C8 counterexample: for the reachable aggregated verdict of a complete
complaint with a 2000-day retention setting, the state-law sub-verdict is
compliant yet carries a warning, and its line is `"ND State Law: Compliant"`
— not a `"... WARNINGS: ..."` line as the original claim requires for a
rule set with warnings. -/
theorem claim_C8_counterexample :
    (comprehensive_compliance_check 2000 complaintEx []).nd_state_law.compliant = true
    ∧ (comprehensive_compliance_check 2000 complaintEx []).nd_state_law.warnings
        = [ndRetentionMsg 2000]
    ∧ (prepare_compliance_considerations
        (comprehensive_compliance_check 2000 complaintEx []))[2]? = some lblNdOk
    ∧ (∀ line ∈ prepare_compliance_considerations
          (comprehensive_compliance_check 2000 complaintEx []),
        ¬ ("ND STATE LAW WARNINGS".data).isPrefixOf line = true) := by
  refine ⟨rfl, rfl, rfl, by decide⟩

/-- C9: the plain-text exporter is a pure function of the report value: two
invocations on the same report yield identical output. -/
theorem claim_C9 (report : InvestigationReport) :
    export_report_to_text report = export_report_to_text report := rfl
